import Mathlib

/-!
Verification development for the smoothbrain plugin (Python sources:
`state.py`, `story_templates.py`, `prompt_guides.py`, `ollama.py`).

The Python code is shallowly embedded: pure functions become Lean functions,
Python `int` becomes `ℤ`, Python `float` arguments are modelled as `ℚ`
(with Python `round`'s round-half-to-even semantics made explicit), Python
dicts become association lists with insertion-order semantics, the
filesystem becomes a map from paths to stored JSON values, and the
effectful boundary of `ollama.py` (HTTP reachability, the text returned by
the model, `random.shuffle`) is modelled by explicit oracle parameters.
-/

-- ════════════════════════════════════════════════════════════════════════
-- state.py — frame helpers
-- ════════════════════════════════════════════════════════════════════════

/-- Python `round` on a rational: round half to even (banker's rounding).
Models the builtin `round` used by `snap_to_8n1` and `duration_to_frames`
in `state.py`; `float` inputs are modelled as exact rationals. -/
def pyRound (q : ℚ) : ℤ :=
  let n := q.floor
  let f := q - n
  if f < 1/2 then n
  else if 1/2 < f then n + 1
  else if n % 2 = 0 then n else n + 1

/-- Embedding of `state.py` `snap_to_8n1(frames)`: snap frame count to
nearest `8n+1` (LTX-2 requirement). `if frames <= 17: return 17;
n = round((frames - 1) / 8); return max(17, n * 8 + 1)`. -/
def snap_to_8n1 (frames : ℤ) : ℤ :=
  if frames ≤ 17 then 17
  else max 17 (pyRound ((frames - 1 : ℤ) / (8 : ℚ)) * 8 + 1)

/-- Embedding of `state.py` `duration_to_frames(seconds, fps, is_ltx)`:
`raw = max(1, round(seconds * fps)); return snap_to_8n1(raw) if is_ltx
else raw`. -/
def duration_to_frames (seconds : ℚ) (fps : ℤ) (is_ltx : Bool) : ℤ :=
  let raw := max 1 (pyRound (seconds * fps))
  if is_ltx then snap_to_8n1 raw else raw

-- ════════════════════════════════════════════════════════════════════════
-- state.py — slugify_concept
-- ════════════════════════════════════════════════════════════════════════

/-- Python whitespace class (`\s` over ASCII, and the characters removed by
`str.strip()`): space, tab, newline, carriage return, vertical tab, form
feed. -/
def isPyWs (c : Char) : Bool :=
  c == ' ' || c == '\t' || c == '\n' || c == '\r' || c == '\x0b' || c == '\x0c'

/-- Python `str.strip()` on a character list. -/
def pyStripWs (l : List Char) : List Char :=
  ((l.dropWhile isPyWs).reverse.dropWhile isPyWs).reverse

/-- Character class of `re.sub(r"[^a-z0-9\s-]", "", slug)` in
`slugify_concept`: the characters that are kept. -/
def isKeepChar (c : Char) : Bool :=
  ('a' ≤ c && c ≤ 'z') || ('0' ≤ c && c ≤ '9') || isPyWs c || c == '-'

/-- Character class of `re.sub(r"[\s_]+", "-", slug)`. -/
def isWsOrUnderscore (c : Char) : Bool := isPyWs c || c == '_'

/-- Character class of `re.sub(r"-+", "-", slug)` and of `.strip("-")` /
`.rstrip("-")`. -/
def isHyphen (c : Char) : Bool := c == '-'

/-- `re.sub(p+, "-", l)` for a single-character class `p`: every maximal
run of characters satisfying `p` is replaced by one hyphen.  Implemented
structurally: inside a run only the final character of the run emits the
replacement hyphen. -/
def collapseRuns (p : Char → Bool) : List Char → List Char
  | [] => []
  | [c] => if p c then ['-'] else [c]
  | c :: d :: rest =>
    if p c && p d then collapseRuns p (d :: rest)
    else (if p c then '-' else c) :: collapseRuns p (d :: rest)

/-- Python `.rstrip("-")` on a character list. -/
def rstripHyphens (l : List Char) : List Char :=
  (l.reverse.dropWhile isHyphen).reverse

/-- Python `.strip("-")` on a character list: drop leading hyphens, then
trailing ones. -/
def stripHyphens (l : List Char) : List Char :=
  rstripHyphens (l.dropWhile isHyphen)

/-- The sanitisation pipeline of `state.py` `slugify_concept` before the
`or "untitled"` fallback: lowercase (Python `str.lower`, modelled by the
ASCII `Char.toLower`; this only affects which non-ASCII characters survive
the subsequent filter, not the shape of the result), strip, remove
characters outside `[a-z0-9\s-]`, collapse whitespace/underscore runs to
hyphens, collapse hyphen runs, strip hyphens, truncate to `max_len = 40`,
strip trailing hyphens. -/
def slug_chars (concept : String) : List Char :=
  let s1 := pyStripWs (concept.data.map Char.toLower)
  let s2 := s1.filter isKeepChar
  let s3 := collapseRuns isWsOrUnderscore s2
  let s4 := collapseRuns isHyphen s3
  let s5 := stripHyphens s4
  rstripHyphens (s5.take 40)

/-- Embedding of `state.py` `slugify_concept(concept)` (with the default
`max_len = 40`): the sanitisation pipeline, then `return slug or
"untitled"`. -/
def slugify_concept (concept : String) : String :=
  if slug_chars concept = [] then "untitled" else String.mk (slug_chars concept)

/-- The character class claimed for slugs: lowercase letters, digits and
hyphens. -/
def isSlugChar (c : Char) : Bool :=
  ('a' ≤ c && c ≤ 'z') || ('0' ≤ c && c ≤ '9') || c == '-'

-- ════════════════════════════════════════════════════════════════════════
-- state.py — project persistence (save_project / load_project)
-- ════════════════════════════════════════════════════════════════════════

/-- JSON values as stored in `project.json`.  Python numbers (int and
float) are modelled together as `ℚ`; `json.dump` followed by `json.load`
is the identity on this tree (Python round-trips ints exactly and floats
via exact `repr`). -/
inductive JVal where
  | null : JVal
  | bool : Bool → JVal
  | num : ℚ → JVal
  | str : String → JVal
  | arr : List JVal → JVal
  | obj : List (String × JVal) → JVal

/-- Python dict assignment `d[k] = v` on an insertion-ordered dict modelled
as an association list: overwrite in place if the key is present, append
otherwise. -/
def setKey : List (String × JVal) → String → JVal → List (String × JVal)
  | [], k, v => [(k, v)]
  | kv :: rest, k, v => if kv.1 = k then (k, v) :: rest else kv :: setKey rest k v

/-- Python dict read `d.get(k)`. -/
def getKey : List (String × JVal) → String → Option JVal
  | [], _ => none
  | kv :: rest, k => if kv.1 = k then some kv.2 else getKey rest k

/-- Embedding of `state.py` `save_project(sb_state, project_dir)`.  The
filesystem is a map from paths to stored JSON documents; the
write-to-temp-then-atomic-rename sequence is modelled as a single write of
the complete document (a reader sees the old or the new complete file).
`sb_state` is the project dict; `now` is the value of `time.time()` that
the source stores under `"saved_at"` before dumping.  If no project
directory is given and the state has none, the save is skipped. -/
def save_project (sb_state : List (String × JVal)) (project_dir : String)
    (now : ℚ) (fs : String → Option JVal) : String → Option JVal :=
  let dir := if project_dir = "" then
      (match getKey sb_state "project_dir" with
       | some (JVal.str d) => d
       | _ => "")
    else project_dir
  if dir = "" then fs
  else fun p =>
    if p = dir ++ "/project.json" then
      some (JVal.obj (setKey sb_state "saved_at" (JVal.num now)))
    else fs p

/-- Embedding of `state.py` `load_project(project_dir)`: read
`<dir>/project.json`; on success force `data["project_dir"] = project_dir`
and return the dict.  A missing file, or a stored document that is not an
object (on which the key assignment would raise, caught by the source's
`except`), yields `none`. -/
def load_project (project_dir : String) (fs : String → Option JVal) :
    Option (List (String × JVal)) :=
  match fs (project_dir ++ "/project.json") with
  | some (JVal.obj data) => some (setKey data "project_dir" (JVal.str project_dir))
  | some _ => none
  | none => none

-- ════════════════════════════════════════════════════════════════════════
-- story_templates.py
-- ════════════════════════════════════════════════════════════════════════

/-- Embedding of `story_templates.py` `StoryTemplate`. -/
structure StoryTemplate where
  genre : String
  beats : List String
deriving DecidableEq

/-- The eight genres of `ALL_GENRES`. -/
def ALL_GENRES : List String :=
  ["action", "comedy", "drama", "horror", "scifi", "romance", "fantasy", "thriller"]

/-- Embedding of the `TEMPLATES` table: eight templates of ten beats each,
transcribed verbatim (apostrophes written with the `\x27` escape). -/
def TEMPLATES : List StoryTemplate := [
  { genre := "action", beats := [
      "Extreme wide shot: {subject} stands on the edge of a rooftop at sunset, city sprawling below.",
      "Low-angle shot: {subject} sprints toward camera, buildings blurring behind.",
      "Close-up: sweat on {subject}\x27s face, jaw clenched with determination.",
      "Action cam: {subject} leaps across a gap between buildings, arms reaching.",
      "Slow motion: {subject} lands hard on gravel, skids to a stop.",
      "Over-the-shoulder: {subject} faces an enemy, tension electric in the air.",
      "Dutch angle close-up: fists clench as the confrontation begins.",
      "Wide: an epic fight sequence unfolds in the orange dusk.",
      "Tracking shot: {subject} escapes into the crowd below, disappearing.",
      "Final wide: the city skyline quiet again, {subject} gone."] },
  { genre := "comedy", beats := [
      "Wide: {subject} wakes up to find everything hilariously wrong — chaos at first glance.",
      "Reaction shot: {subject} stares at the mess with growing horror and disbelief.",
      "Montage: frantic quick cuts of {subject} attempting absurd fixes.",
      "Close-up: a plan forms — a telltale gleam in {subject}\x27s eye.",
      "Wide: the plan goes spectacularly sideways, doubling the chaos.",
      "Over-the-shoulder: {subject} catches someone else\x27s judging stare.",
      "Close-up: a sheepish grin as {subject} shrugs it all off.",
      "Wide: unexpected help arrives — making things chaotically better.",
      "Warm medium shot: laughter fills the room, the mess forgotten.",
      "Final close-up: {subject} raises an eyebrow at the camera — victorious."] },
  { genre := "drama", beats := [
      "Wide: {subject} alone at a window, rain streaking the glass.",
      "Close-up: a worn photograph in {subject}\x27s hands — a memory.",
      "Flashback medium: {subject} in better days, laughing with someone now gone.",
      "Return to present: slow zoom on {subject}\x27s face, heavy with loss.",
      "A knock at the door — {subject} hesitates before answering.",
      "Two-shot: a difficult conversation unfolds, every word measured.",
      "Close-up cutaways: hands, eyes, the space between two people.",
      "Wide: {subject} makes a choice that cannot be undone.",
      "Tracking shot: {subject} walks away into uncertainty.",
      "Final: an empty chair, a single light left on."] },
  { genre := "horror", beats := [
      "Extreme wide: {subject} arrives at an isolated location as dusk falls.",
      "Medium: {subject} explores the space — something feels wrong.",
      "Close-up: {subject} finds an unsettling clue. Pause. Heartbeat.",
      "POV: something moves at the edge of frame — gone when we look.",
      "Overhead: {subject} is being watched. They don\x27t know it yet.",
      "Jump cut: a sudden sound — {subject} spins, nothing there.",
      "Slow crawl: the camera inches toward a closed door.",
      "Wide: the door opens — darkness beyond.",
      "Chaos cut: rapid flashes — screaming, running, confusion.",
      "Final frame: silence. An ominous detail left for the audience."] },
  { genre := "scifi", beats := [
      "Establishing wide: a vast alien or futuristic cityscape — {subject} is tiny against it.",
      "Close-up: {subject} studies a holographic display, something anomalous.",
      "Cutaway: the anomaly spreading — a system failing.",
      "Medium: {subject} makes a desperate call to action.",
      "Tracking: {subject} races through gleaming corridors, alarms sounding.",
      "Wide: a massive machine or spaceship — {subject} dwarfed by scale.",
      "Close-up: {subject}\x27s gloved hands working controls under pressure.",
      "Reaction: the countdown — three seconds.",
      "Flash cut: the solution — beauty and destruction at once.",
      "Final wide: silence returns. Stars. {subject} floats, breathing."] },
  { genre := "romance", beats := [
      "Wide: two strangers in the same crowded space — {subject} notices.",
      "POV: their eyes meet for just a moment, then look away.",
      "Montage: chance encounters, each a little longer than the last.",
      "Close-up: {subject}\x27s hand brushes theirs. Stillness.",
      "Medium: the first real conversation — nervous, genuine.",
      "Golden hour wide: walking side by side as light fades.",
      "Close-up: a smile that says everything before words do.",
      "Wide: a moment of doubt — distance opens between them.",
      "Close-up: {subject} makes a choice — steps forward.",
      "Final wide: two silhouettes, together against the fading sky."] },
  { genre := "fantasy", beats := [
      "Epic wide: a mythical landscape — {subject} stands at its threshold.",
      "Close-up: an ancient artifact or mark on {subject}\x27s hand glows.",
      "Medium: a mysterious guide appears — a warning, a map.",
      "Montage: the journey — mountains, forests, rivers crossed.",
      "Close-up: {subject} faces their first test — fear and resolve.",
      "Wide: an impossible creature or wonder fills the frame.",
      "Slow motion: {subject} discovers a hidden power within.",
      "Wide: the final confrontation — light against shadow.",
      "Close-up: the decisive moment — sacrifice and triumph.",
      "Final wide: the world changed forever. {subject} changed too."] },
  { genre := "thriller", beats := [
      "Wide: {subject} follows someone through a crowded city — closing in.",
      "Close-up: a suspicious object discovered — face drains of color.",
      "Cutaway: a clock. A deadline. The stakes crystallize.",
      "Rapid cuts: piecing together clues across scattered locations.",
      "Medium: {subject} is confronted — something doesn\x27t add up.",
      "Close-up: a lie detected in someone\x27s eyes.",
      "Wide: the trap closes — {subject} is deeper than they thought.",
      "Over-the-shoulder: {subject} makes a dangerous call for help.",
      "Extreme close-up: a hand on a weapon. A choice. A breath.",
      "Final: silence after impact. The truth revealed at last."] }]

/-- Python `str.strip()` on a string. -/
def pyStripWsStr (s : String) : String := String.mk (pyStripWs s.data)

/-- Python slicing `l[:n]` (with Python's negative-index semantics). -/
def pySlice {α : Type} (l : List α) (n : ℤ) : List α :=
  if n < 0 then l.take ((l.length : ℤ) + n).toNat else l.take n.toNat

/-- Python `b.replace("\x7bsubject\x7d", subject)`: left-to-right,
non-overlapping replacement of every occurrence of the nine-character
placeholder, specialised to that fixed pattern so the recursion is
structural. -/
def substSubject (subject : List Char) : List Char → List Char
  | '\x7b' :: 's' :: 'u' :: 'b' :: 'j' :: 'e' :: 'c' :: 't' :: '\x7d' :: rest =>
      subject ++ substSubject subject rest
  | c :: rest => c :: substSubject subject rest
  | [] => []

/-- Embedding of `story_templates.py` `fill_template(template, subject,
shot_count)`: `s = subject.strip() or "the hero"`, substitute, trim. -/
def fill_template (template : StoryTemplate) (subject : String)
    (shot_count : ℤ) : List String :=
  let s := if pyStripWsStr subject = "" then "the hero" else pyStripWsStr subject
  (pySlice template.beats shot_count).map (fun b => String.mk (substSubject s.data b.data))

/-- `weights.get(genre, 0)` on the genre-weight dict. -/
def lookupWeight (weights : List (String × ℤ)) (g : String) : ℤ :=
  match weights.find? (fun kv => kv.1 == g) with
  | some kv => kv.2
  | none => 0

/-- Embedding of `story_templates.py` `get_weighted_templates(weights,
count)`: build the pool with one copy of each template per weight point
(`max 0` applied), fall back to all templates if the pool is empty, then
shuffle and take `count`.  `random.shuffle` is modelled by the explicit
`shuffle` oracle; theorems quantify over all permutations. -/
def get_weighted_templates (weights : List (String × ℤ)) (count : ℕ)
    (shuffle : List StoryTemplate → List StoryTemplate) : List StoryTemplate :=
  let pool := TEMPLATES.flatMap
    (fun t => List.replicate (max 0 (lookupWeight weights t.genre)).toNat t)
  let pool2 := if pool.isEmpty then TEMPLATES else pool
  (shuffle pool2).take count

-- ════════════════════════════════════════════════════════════════════════
-- prompt_guides.py
-- ════════════════════════════════════════════════════════════════════════

/-- The five concrete guide records of `prompt_guides.py` (`WAN_GUIDE`,
`LTX2_GUIDE`, `HUNYUAN_GUIDE`, `FLUX2_GUIDE`, `FLUX1_GUIDE`).  The record
fields (syntax rules, keywords, pitfalls, examples, optional audio
guidance) are long prose strings on which no claim depends; each
constructor stands for the corresponding distinct record object. -/
inductive ModelPromptGuide where
  | WAN_GUIDE : ModelPromptGuide
  | LTX2_GUIDE : ModelPromptGuide
  | HUNYUAN_GUIDE : ModelPromptGuide
  | FLUX2_GUIDE : ModelPromptGuide
  | FLUX1_GUIDE : ModelPromptGuide
deriving DecidableEq

/-- Embedding of the `MODEL_GUIDES` registry, in the source's dict
insertion order.  Model identifiers are modelled as character lists. -/
def MODEL_GUIDES : List (List Char × ModelPromptGuide) := [
  ("t2v".data, ModelPromptGuide.WAN_GUIDE),
  ("i2v".data, ModelPromptGuide.WAN_GUIDE),
  ("t2v_1.3B".data, ModelPromptGuide.WAN_GUIDE),
  ("i2v_2_2".data, ModelPromptGuide.WAN_GUIDE),
  ("ti2v_2_2".data, ModelPromptGuide.WAN_GUIDE),
  ("t2v_2_2".data, ModelPromptGuide.WAN_GUIDE),
  ("ltx2".data, ModelPromptGuide.LTX2_GUIDE),
  ("ltx2_distilled".data, ModelPromptGuide.LTX2_GUIDE),
  ("ltx2_19B".data, ModelPromptGuide.LTX2_GUIDE),
  ("ltxv_13B".data, ModelPromptGuide.LTX2_GUIDE),
  ("hunyuan_1_5_t2v".data, ModelPromptGuide.HUNYUAN_GUIDE),
  ("hunyuan_1_5_i2v".data, ModelPromptGuide.HUNYUAN_GUIDE),
  ("hunyuan".data, ModelPromptGuide.HUNYUAN_GUIDE),
  ("hunyuan_i2v".data, ModelPromptGuide.HUNYUAN_GUIDE),
  ("flux2_dev".data, ModelPromptGuide.FLUX2_GUIDE),
  ("flux2_klein_4b".data, ModelPromptGuide.FLUX2_GUIDE),
  ("flux2_klein_9b".data, ModelPromptGuide.FLUX2_GUIDE),
  ("flux".data, ModelPromptGuide.FLUX1_GUIDE),
  ("flux_schnell".data, ModelPromptGuide.FLUX1_GUIDE),
  ("flux_dev_kontext".data, ModelPromptGuide.FLUX1_GUIDE)]

/-- Embedding of `prompt_guides.py` `get_guide(model_id)`: `None` on an
empty identifier, exact dict lookup first, then the first registered key
(in insertion order) that is a prefix of the identifier. -/
def get_guide (model_id : List Char) : Option ModelPromptGuide :=
  if model_id.isEmpty then none
  else
    match MODEL_GUIDES.find? (fun kv => kv.1 == model_id) with
    | some kv => some kv.2
    | none => (MODEL_GUIDES.find? (fun kv => kv.1.isPrefixOf model_id)).map (fun kv => kv.2)

/-- Models `format_guide_for_system_prompt(model_id)` at the level used by
its callers: the source returns the empty string exactly when `get_guide`
returns `None`, and a nonempty formatted guide text otherwise (the text
itself is elided, as no claim depends on it). -/
def format_guide_is_empty (model_id : List Char) : Bool :=
  (get_guide model_id).isNone

-- ════════════════════════════════════════════════════════════════════════
-- ollama.py — shot generation pipeline
-- ════════════════════════════════════════════════════════════════════════

/-- A parsed element of the LLM's storyboard array, as consumed via
`s.get("prompt", ...)` / `s.get("shot_label", ...)`. -/
structure RawShot where
  prompt : String
  shot_label : String
deriving DecidableEq

/-- A shot dict as returned by `pack` / `_fallback_shots`:
`{prompt, shot_label, imagePrompt, videoPrompt}`. -/
structure ShotDict where
  prompt : String
  shot_label : String
  imagePrompt : String
  videoPrompt : String
deriving DecidableEq

/-- A parsed element of the refinement response array: a dict whose
`imagePrompt` / `videoPrompt` keys may be missing (`refined[i].get(...)`
falls back to the shot's own prompt). -/
structure RefineItem where
  imagePrompt : Option String
  videoPrompt : Option String
deriving DecidableEq

/-- The effectful environment of `ollama.py`, modelled as oracles:
`online` is the result of `is_online()` (conjoined with `HAS_HTTPX`);
`llm_shots` is the result of `_extract_json_array` on the storyboard
generation response, with `none` covering both a raised generation call
and an unparseable response (the source handles the two identically);
`refine_gen_error` / `refine_parsed` play the same roles for the
refinement call inside `_refine_prompts`; `shuffle` is `random.shuffle`. -/
structure OllamaEnv where
  online : Bool
  llm_shots : Option (List RawShot)
  refine_gen_error : Bool
  refine_parsed : Option (List RefineItem)
  shuffle : List StoryTemplate → List StoryTemplate

/-- `templates[0] if templates else TEMPLATES[0]` inside
`_fallback_shots`. -/
def chosen_template (weights : List (String × ℤ))
    (shuffle : List StoryTemplate → List StoryTemplate) : StoryTemplate :=
  (get_weighted_templates weights 1 shuffle).headD (TEMPLATES.headD ⟨"", []⟩)

/-- Embedding of `ollama.py` `_fallback_shots(concept, genre_weights,
shot_count)`: one weighted template, `fill_template`, and one dict per
beat with `imagePrompt` and `videoPrompt` both equal to the beat. -/
def fallback_shots (concept : String) (weights : List (String × ℤ))
    (shot_count : ℤ) (shuffle : List StoryTemplate → List StoryTemplate) :
    List ShotDict :=
  let beats := fill_template (chosen_template weights shuffle) concept shot_count
  beats.enum.map (fun ib =>
    { prompt := ib.2, shot_label := "Shot " ++ toString (ib.1 + 1),
      imagePrompt := ib.2, videoPrompt := ib.2 })

/-- Embedding of `ollama.py` `_refine_prompts(model_name, shots,
image_model, video_model)`: skipped (returns `None`) when neither target
model has a guide; `None` when the generation call raises, when no array
is parseable, and when the parsed array is empty or its length differs
from the number of input shots; otherwise each shot is merged with its
refined `imagePrompt` / `videoPrompt` (each defaulting to the shot's own
prompt when the key is absent). -/
def refine_prompts (gen_error : Bool) (parsed : Option (List RefineItem))
    (shots : List RawShot) (image_model video_model : List Char) :
    Option (List ShotDict) :=
  if format_guide_is_empty image_model && format_guide_is_empty video_model then none
  else if gen_error then none
  else match parsed with
  | none => none
  | some refined =>
    if refined.isEmpty = false ∧ refined.length = shots.length then
      some ((shots.zip refined).map (fun sr =>
        { prompt := sr.1.prompt, shot_label := sr.1.shot_label,
          imagePrompt := sr.2.imagePrompt.getD sr.1.prompt,
          videoPrompt := sr.2.videoPrompt.getD sr.1.prompt }))
    else none

/-- `count = max(2, min(shot_count, 20))` at the top of `pack`. -/
def clamp_shot_count (shot_count : ℤ) : ℤ := max 2 (min shot_count 20)

/-- Embedding of `ollama.py` `pack(concept, shot_count, genre_weights,
image_model, video_model)`.  Returns the shot dicts together with a flag
recording whether any generation call was issued to the service (the
online branch always issues the storyboard call).  An empty
`genre_weights` list models the falsy dict defaulted to
`{"action": 50}`. -/
def pack (env : OllamaEnv) (concept : String) (shot_count : ℤ)
    (genre_weights : List (String × ℤ)) (image_model video_model : List Char) :
    List ShotDict × Bool :=
  let count := clamp_shot_count shot_count
  let weights := if genre_weights.isEmpty then [("action", (50 : ℤ))] else genre_weights
  if env.online = false then
    (fallback_shots concept weights count env.shuffle, false)
  else
    match env.llm_shots with
    | none => (fallback_shots concept weights count env.shuffle, true)
    | some shots =>
      if shots.isEmpty then (fallback_shots concept weights count env.shuffle, true)
      else if image_model.isEmpty = false ∨ video_model.isEmpty = false then
        match refine_prompts env.refine_gen_error env.refine_parsed shots
            image_model video_model with
        | some refined => (refined, true)
        | none =>
          (shots.map (fun s =>
            { prompt := s.prompt, shot_label := s.shot_label,
              imagePrompt := s.prompt, videoPrompt := s.prompt }), true)
      else
        (shots.map (fun s =>
          { prompt := s.prompt, shot_label := s.shot_label,
            imagePrompt := s.prompt, videoPrompt := s.prompt }), true)

/-- Helper for substring containment: `sub` occurs in `l` at some
position. -/
def listContainsSub (l sub : List Char) : Bool :=
  match l with
  | [] => sub.isEmpty
  | _ :: rest => sub.isPrefixOf l || listContainsSub rest sub

/-- Python `sub in s` substring containment. -/
def str_contains (s sub : String) : Bool := listContainsSub s.data sub.data

-- ════════════════════════════════════════════════════════════════════════
-- ollama.py — ensure_ollama (auto-setup state machine)
-- ════════════════════════════════════════════════════════════════════════

/-- The oracle outcomes of the external steps of `ensure_ollama`:
`online0` is what `is_online()` reports before any server start (the
install steps do not start the server, so the mid-function re-check
observes the same value); `has_model` is whether the service has at least
one installed model; the remaining flags are the outcomes of
`_find_ollama`, the platform branch, `_download_ollama_windows`, the
installers, the re-probe after install, `_start_ollama_server` and
`_pull_model`. -/
structure SetupEnv where
  online0 : Bool
  has_model : Bool
  found : Bool
  is_windows : Bool
  download_ok : Bool
  install_ok : Bool
  found_after_install : Bool
  start_ok : Bool
  pull_ok : Bool

/-- The process-wide mutable state touched by `ensure_ollama`:
`_cached_model`, `_setup_status` and the `_setup_done` event. -/
structure SetupState where
  cached_model : Option String
  setup_status : String
  setup_done : Bool
deriving DecidableEq

/-- The dict returned by `ensure_ollama`. -/
structure EnsureResult where
  online : Bool
  model_ready : Bool
  status : String
deriving DecidableEq

/-- Step 3 of `ensure_ollama` (pull the default model if none is
installed), followed by the shared terminal-success block
`_set_status("ready"); _setup_done.set(); clear_model_cache()`. -/
def ensure_ollama_step3 (env : SetupEnv) (st : SetupState) :
    SetupState × EnsureResult :=
  if env.has_model = false then
    let st := { st with setup_status := "pulling" }
    if env.pull_ok = false then
      ({ st with setup_status := "failed:pull", setup_done := true },
       ⟨true, false, "failed:pull"⟩)
    else
      ({ st with setup_status := "ready", setup_done := true, cached_model := none },
       ⟨true, true, "ready"⟩)
  else
    ({ st with setup_status := "ready", setup_done := true, cached_model := none },
     ⟨true, true, "ready"⟩)

/-- Step 2 of `ensure_ollama` (start the server if not already listening),
then step 3.  Shared by every path that located an executable. -/
def ensure_ollama_steps23 (env : SetupEnv) (st : SetupState) :
    SetupState × EnsureResult :=
  if env.online0 = false then
    let st := { st with setup_status := "starting" }
    if env.start_ok = false then
      ({ st with setup_status := "failed:start", setup_done := true },
       ⟨false, false, "failed:start"⟩)
    else ensure_ollama_step3 env st
  else ensure_ollama_step3 env st

/-- Embedding of `ollama.py` `ensure_ollama()` as a function from the
oracle environment and the entry state to the exit state and result,
following the source's control flow branch by branch.  Note the
already-online-with-model early return does not touch the cached model. -/
def ensure_ollama (env : SetupEnv) (st : SetupState) : SetupState × EnsureResult :=
  if env.online0 && env.has_model then
    ({ st with setup_status := "ready", setup_done := true },
     ⟨true, true, "ready"⟩)
  else
    let st := { st with setup_status := "checking" }
    if env.found then
      ensure_ollama_steps23 env st
    else if env.is_windows then
      let st := { st with setup_status := "downloading" }
      if env.download_ok = false then
        ({ st with setup_status := "failed:download", setup_done := true },
         ⟨false, false, "failed:download"⟩)
      else
        let st := { st with setup_status := "installing" }
        if env.install_ok = false then
          ({ st with setup_status := "failed:install", setup_done := true },
           ⟨false, false, "failed:install"⟩)
        else if env.found_after_install = false then
          ({ st with setup_status := "failed:notfound", setup_done := true },
           ⟨false, false, "failed:notfound"⟩)
        else ensure_ollama_steps23 env st
    else
      let st := { st with setup_status := "installing" }
      if env.install_ok = false then
        ({ st with setup_status := "failed:install", setup_done := true },
         ⟨false, false, "failed:install"⟩)
      else if env.found_after_install = false then
        ({ st with setup_status := "failed:notfound", setup_done := true },
         ⟨false, false, "failed:notfound"⟩)
      else ensure_ollama_steps23 env st

-- ════════════════════════════════════════════════════════════════════════
-- Helper lemmas — pyRound / snap_to_8n1
-- ════════════════════════════════════════════════════════════════════════

theorem ratFloor_eq_intFloor (q : ℚ) : q.floor = ⌊q⌋ :=
  (Rat.floor_def' q).trans Rat.floor_def.symm

theorem pyRound_ge (q : ℚ) : q - 1/2 ≤ (pyRound q : ℚ) := by
  have h1 : ((⌊q⌋ : ℤ) : ℚ) ≤ q := Int.floor_le q
  have h2 : q < (⌊q⌋ : ℚ) + 1 := Int.lt_floor_add_one q
  simp only [pyRound, ratFloor_eq_intFloor]
  split_ifs <;> push_cast <;> linarith

theorem pyRound_le (q : ℚ) : (pyRound q : ℚ) ≤ q + 1/2 := by
  have h1 : ((⌊q⌋ : ℤ) : ℚ) ≤ q := Int.floor_le q
  have h2 : q < (⌊q⌋ : ℚ) + 1 := Int.lt_floor_add_one q
  simp only [pyRound, ratFloor_eq_intFloor]
  split_ifs with hf1 hf2 <;> push_cast <;> linarith

theorem pyRound_intCast (n : ℤ) : pyRound ((n : ℤ) : ℚ) = n := by
  simp only [pyRound, ratFloor_eq_intFloor, Int.floor_intCast, sub_self]
  norm_num

theorem snap_to_8n1_form (frames : ℤ) : ∃ n : ℤ, snap_to_8n1 frames = 8 * n + 1 := by
  unfold snap_to_8n1
  split_ifs with h
  · exact ⟨2, rfl⟩
  · rcases le_total (pyRound ((frames - 1 : ℤ) / (8 : ℚ)) * 8 + 1) 17 with hle | hge
    · rw [max_eq_left hle]; exact ⟨2, rfl⟩
    · rw [max_eq_right hge]; exact ⟨pyRound ((frames - 1 : ℤ) / (8 : ℚ)), by ring⟩

theorem snap_to_8n1_ge_17 (frames : ℤ) : 17 ≤ snap_to_8n1 frames := by
  unfold snap_to_8n1
  split_ifs with h
  · exact le_refl 17
  · exact le_max_left _ _

theorem snap_to_8n1_ge_sub_four (frames : ℤ) : frames - 4 ≤ snap_to_8n1 frames := by
  unfold snap_to_8n1
  split_ifs with h
  · linarith
  · refine le_trans ?_ (le_max_right 17 _)
    have hq := pyRound_ge ((frames - 1 : ℤ) / (8 : ℚ))
    have hcast : ((frames : ℚ)) - 4 ≤ (pyRound ((frames - 1 : ℤ) / (8 : ℚ)) : ℚ) * 8 + 1 := by
      push_cast at hq ⊢
      linarith
    exact_mod_cast hcast

-- ════════════════════════════════════════════════════════════════════════
-- C3 — duration_to_frames
-- ════════════════════════════════════════════════════════════════════════

/-- C3 (amended): for every duration and fps, `duration_to_frames` for a
frame-snapped (LTX) family returns a frame count of the form `8n+1` that
is at least 17 and within 4 frames below the raw rounded count (it snaps
to the nearest valid value, so it may fall below the raw count, but never
by more than 4); for a non-snapped family it returns exactly
`round(seconds * fps)` with a floor of 1. -/
theorem duration_to_frames_spec (seconds : ℚ) (fps : ℤ) :
    (∃ n : ℤ, duration_to_frames seconds fps true = 8 * n + 1)
    ∧ 17 ≤ duration_to_frames seconds fps true
    ∧ max 1 (pyRound (seconds * fps)) - 4 ≤ duration_to_frames seconds fps true
    ∧ duration_to_frames seconds fps false = max 1 (pyRound (seconds * fps)) := by
  refine ⟨?_, ?_, ?_, rfl⟩
  · exact snap_to_8n1_form _
  · exact snap_to_8n1_ge_17 _
  · exact snap_to_8n1_ge_sub_four _

/-- C3 (counterexample): at `seconds = 20`, `fps = 1` the raw rounded
count is 20 (as the non-snapped family returns), but the snapped family
returns 17 < 20 — the snap is to the nearest `8n+1`, not upward, so the
claimed lower bound by the raw count fails. -/
theorem duration_to_frames_counterexample :
    duration_to_frames 20 1 true = 17 ∧ duration_to_frames 20 1 false = 20
    ∧ duration_to_frames 20 1 true < duration_to_frames 20 1 false := by
  have hraw : pyRound ((20 : ℚ) * ((1 : ℤ) : ℚ)) = 20 := by
    have hcast : (20 : ℚ) * ((1 : ℤ) : ℚ) = ((20 : ℤ) : ℚ) := by push_cast; ring
    rw [hcast, pyRound_intCast]
  have hflr : ((19 : ℚ) / 8).floor = 2 := by
    rw [ratFloor_eq_intFloor]; norm_num
  have hsnap : pyRound ((19 : ℚ) / 8) = 2 := by
    simp only [pyRound, hflr]
    norm_num
  have h20 : duration_to_frames 20 1 false = 20 := by
    show max 1 (pyRound ((20 : ℚ) * ((1 : ℤ) : ℚ))) = 20
    rw [hraw, max_eq_right (by norm_num : (1 : ℤ) ≤ 20)]
  have h17 : duration_to_frames 20 1 true = 17 := by
    show snap_to_8n1 (max 1 (pyRound ((20 : ℚ) * ((1 : ℤ) : ℚ)))) = 17
    rw [hraw, max_eq_right (by norm_num : (1 : ℤ) ≤ 20)]
    unfold snap_to_8n1
    rw [if_neg (by norm_num)]
    have hc : (((20 : ℤ) - 1 : ℤ) : ℚ) / (8 : ℚ) = (19 : ℚ) / 8 := by norm_num
    rw [hc, hsnap]
    norm_num
  exact ⟨h17, h20, by rw [h17, h20]; norm_num⟩

-- ════════════════════════════════════════════════════════════════════════
-- C5 — ensure_ollama and the model cache
-- ════════════════════════════════════════════════════════════════════════

/-- C5 (amended): whenever `ensure_ollama` terminates with status
`"ready"`, the cached best-model selection is cleared — except on the
early-return path where the service is already online with a model
installed, which leaves the cache untouched. -/
theorem ensure_ollama_ready_cache (env : SetupEnv) (st : SetupState)
    (h : (ensure_ollama env st).2.status = "ready") :
    (ensure_ollama env st).1.cached_model =
      (if env.online0 && env.has_model then st.cached_model else none) := by
  rcases env with ⟨o, hm, f, w, d, i, fa, s, p⟩
  cases o <;> cases hm <;> cases f <;> cases w <;> cases d <;> cases i <;>
    cases fa <;> cases s <;> cases p <;>
    simp_all [ensure_ollama, ensure_ollama_steps23, ensure_ollama_step3]

/-- C5 (witness): a run that has to start the server reaches `"ready"` and
clears the cache. -/
theorem ensure_ollama_ready_cache_witness :
    (ensure_ollama ⟨false, true, true, false, true, true, true, true, true⟩
      ⟨some "qwen2.5:3b", "", false⟩).1.cached_model =
      (if (false : Bool) && true then some "qwen2.5:3b" else none) :=
  ensure_ollama_ready_cache _ _ (by decide)

/-- C5 (counterexample): when the service is already online with a model
installed, `ensure_ollama` returns status `"ready"` but does not clear the
cached model, contradicting the claim that every success path clears
it. -/
theorem ensure_ollama_counterexample :
    (ensure_ollama ⟨true, true, true, false, true, true, true, true, true⟩
      ⟨some "qwen2.5:3b", "", false⟩).2.status = "ready"
    ∧ (ensure_ollama ⟨true, true, true, false, true, true, true, true, true⟩
      ⟨some "qwen2.5:3b", "", false⟩).1.cached_model ≠ none := by
  decide

-- ════════════════════════════════════════════════════════════════════════
-- C4 — get_guide: exact, then longest-matching registered prefix
-- ════════════════════════════════════════════════════════════════════════

/-- In the registry, whenever an earlier entry's key is a prefix of a
later entry's key, the two entries carry the same guide.  This is the
exact property that makes the source's first-match prefix loop agree with
a longest-match lookup (checked over all 190 ordered pairs). -/
theorem guides_pairwise :
    MODEL_GUIDES.Pairwise (fun a b => a.1 <+: b.1 → a.2 = b.2) := by decide

/-- Every key in the registry is nonempty. -/
theorem guides_keys_ne_nil : ∀ kv ∈ MODEL_GUIDES, kv.1 ≠ ([] : List Char) := by
  decide

/-- Two entries of a pairwise-coherent association list with the same key
carry the same value. -/
theorem pairwise_val_eq {V : Type} {l : List (List Char × V)}
    (hp : l.Pairwise (fun a b => a.1 <+: b.1 → a.2 = b.2))
    {k : List Char} {v1 v2 : V} (h1 : (k, v1) ∈ l) (h2 : (k, v2) ∈ l) :
    v1 = v2 := by
  induction l with
  | nil => cases h1
  | cons a rest ih =>
    rcases List.pairwise_cons.mp hp with ⟨ha, hrest⟩
    rcases List.mem_cons.mp h1 with h1a | h1r
    · rcases List.mem_cons.mp h2 with h2a | h2r
      · rw [← h1a] at h2a
        exact (Prod.mk.injEq _ _ _ _ ▸ h2a.symm).2
      · exact (h1a ▸ ha (k, v2) h2r) (List.prefix_refl k)
    · rcases List.mem_cons.mp h2 with h2a | h2r
      · exact ((h2a ▸ ha (k, v1) h1r) (List.prefix_refl k)).symm
      · exact ih hrest h1r h2r

/-- The first-match prefix loop of `get_guide` returns the value of the
longest matching key, provided the list is pairwise-coherent. -/
theorem find_prefix_longest {V : Type} (l : List (List Char × V))
    (hp : l.Pairwise (fun a b => a.1 <+: b.1 → a.2 = b.2))
    (s k : List Char) (v : V) (hmem : (k, v) ∈ l) (hpre : k <+: s)
    (hmax : ∀ kv ∈ l, kv.1 <+: s → kv.1.length ≤ k.length) :
    (l.find? (fun kv => kv.1.isPrefixOf s)).map (fun kv => kv.2) = some v := by
  induction l with
  | nil => cases hmem
  | cons a rest ih =>
    rcases List.pairwise_cons.mp hp with ⟨ha, hrest⟩
    by_cases hpa : a.1.isPrefixOf s
    · rw [show List.find? (fun kv => kv.1.isPrefixOf s) (a :: rest) = some a from
        List.find?_cons_of_pos rest hpa, Option.map_some']
      have hapre : a.1 <+: s := List.isPrefixOf_iff_prefix.mp hpa
      have halen : a.1.length ≤ k.length := hmax a (List.mem_cons_self a rest) hapre
      have hak : a.1 <+: k := List.prefix_of_prefix_length_le hapre hpre halen
      rcases List.mem_cons.mp hmem with hka | hkr
      · rw [← hka]
      · rw [ha (k, v) hkr hak]
    · rw [show List.find? (fun kv => kv.1.isPrefixOf s) (a :: rest) =
          List.find? (fun kv => kv.1.isPrefixOf s) rest from
        List.find?_cons_of_neg rest hpa]
      rcases List.mem_cons.mp hmem with hka | hkr
      · refine absurd ?_ hpa
        refine List.isPrefixOf_iff_prefix.mpr ?_
        rw [← hka]
        exact hpre
      · exact ih hrest hkr (fun kv hkv => hmax kv (List.mem_cons_of_mem a hkv))

/-- C4: `get_guide` returns the guide registered under the exact
identifier when one exists; otherwise the guide of the longest-matching
registered prefix; and no guide when no registered key is a prefix of the
identifier (including the empty identifier, of which no nonempty key is a
prefix). -/
theorem get_guide_longest_prefix_spec :
    (∀ k v, (k, v) ∈ MODEL_GUIDES → get_guide k = some v)
    ∧ (∀ s k v, (k, v) ∈ MODEL_GUIDES → k <+: s →
        (∀ kv ∈ MODEL_GUIDES, kv.1 <+: s → kv.1.length ≤ k.length) →
        get_guide s = some v)
    ∧ (∀ s, (∀ kv ∈ MODEL_GUIDES, ¬ (kv.1 <+: s)) → get_guide s = none) := by
  have hlongest : ∀ s k v, (k, v) ∈ MODEL_GUIDES → k <+: s →
      (∀ kv ∈ MODEL_GUIDES, kv.1 <+: s → kv.1.length ≤ k.length) →
      get_guide s = some v := by
    intro s k v hmem hpre hmax
    have hknil : k ≠ [] := guides_keys_ne_nil (k, v) hmem
    have hs : ¬ s.isEmpty = true := by
      cases s with
      | nil => exact absurd (List.prefix_nil.mp hpre) hknil
      | cons c cs => simp
    unfold get_guide
    rw [if_neg hs]
    cases hfind : MODEL_GUIDES.find? (fun kv => kv.1 == s) with
    | some kv =>
      have hkvmem : kv ∈ MODEL_GUIDES := List.mem_of_find?_eq_some hfind
      have hkv1 : kv.1 = s := by
        have hb := List.find?_some hfind
        simpa using hb
      have hkvpre : kv.1 <+: s := hkv1 ▸ List.prefix_refl kv.1
      have hlen : kv.1.length ≤ k.length := hmax kv hkvmem hkvpre
      have hk : k <+: kv.1 := hkv1 ▸ hpre
      have hkeq : k = kv.1 := hk.eq_of_length_le hlen
      have hmem2 : (k, kv.2) ∈ MODEL_GUIDES := by
        rw [hkeq]
        exact Prod.mk.eta ▸ hkvmem
      show some kv.2 = some v
      rw [pairwise_val_eq guides_pairwise hmem2 hmem]
    | none =>
      show Option.map (fun kv => kv.2)
        (List.find? (fun kv => kv.1.isPrefixOf s) MODEL_GUIDES) = some v
      exact find_prefix_longest MODEL_GUIDES guides_pairwise s k v hmem hpre hmax
  refine ⟨?_, hlongest, ?_⟩
  · intro k v hmem
    exact hlongest k k v hmem (List.prefix_refl k) (fun kv _ hp => hp.length_le)
  · intro s hnone
    unfold get_guide
    by_cases hs : s.isEmpty
    · rw [if_pos hs]
    · rw [if_neg hs]
      have hex : MODEL_GUIDES.find? (fun kv => kv.1 == s) = none := by
        rw [List.find?_eq_none]
        intro kv hkv hb
        have hkv1 : kv.1 = s := by simpa using hb
        exact hnone kv hkv (hkv1 ▸ List.prefix_refl kv.1)
      have hex2 : MODEL_GUIDES.find? (fun kv => kv.1.isPrefixOf s) = none := by
        rw [List.find?_eq_none]
        intro kv hkv hb
        have hb2 := List.isPrefixOf_iff_prefix.mp hb
        exact hnone kv hkv hb2
      simp only [hex, hex2, Option.map_none']

/-- C4 (witness): `"ltx2_custom"` falls back to the `"ltx2"` prefix and
`"zzz"` matches nothing. -/
theorem get_guide_longest_prefix_spec_witness :
    get_guide "ltx2_custom".data = some ModelPromptGuide.LTX2_GUIDE
    ∧ get_guide "zzz".data = none :=
  ⟨get_guide_longest_prefix_spec.2.1 "ltx2_custom".data "ltx2".data
      ModelPromptGuide.LTX2_GUIDE (by decide) (by decide) (by decide),
   get_guide_longest_prefix_spec.2.2 "zzz".data (by decide)⟩

-- ════════════════════════════════════════════════════════════════════════
-- C8 / C10 — save_project / load_project
-- ════════════════════════════════════════════════════════════════════════

theorem getKey_setKey_self (l : List (String × JVal)) (k : String) (v : JVal) :
    getKey (setKey l k v) k = some v := by
  induction l with
  | nil => simp [setKey, getKey]
  | cons kv rest ih =>
    by_cases h : kv.1 = k
    · simp [setKey, getKey, h]
    · simp [setKey, getKey, h, ih]

theorem getKey_setKey_ne (l : List (String × JVal)) (k k' : String) (v : JVal)
    (h : k' ≠ k) : getKey (setKey l k v) k' = getKey l k' := by
  induction l with
  | nil => simp [setKey, getKey, Ne.symm h]
  | cons kv rest ih =>
    by_cases hh : kv.1 = k
    · simp [setKey, getKey, hh, Ne.symm h, h]
    · simp [setKey, getKey, hh, ih]

/-- C8 (amended): saving a project state and immediately loading it back
from the same (nonempty) project directory yields the saved state with
`saved_at` overwritten by the save timestamp and `project_dir` forced to
the directory; every other attribute — in particular the nested `shots`
array with each shot's `status` and `video_status` — round-trips
unchanged. -/
theorem save_load_round_trip (st : List (String × JVal)) (dir : String) (now : ℚ)
    (fs : String → Option JVal) (hdir : dir ≠ "") :
    load_project dir (save_project st dir now fs) =
      some (setKey (setKey st "saved_at" (JVal.num now)) "project_dir" (JVal.str dir))
    ∧ ∀ k, k ≠ "saved_at" → k ≠ "project_dir" →
        getKey (setKey (setKey st "saved_at" (JVal.num now)) "project_dir"
          (JVal.str dir)) k = getKey st k := by
  constructor
  · simp [load_project, save_project, hdir]
  · intro k h1 h2
    rw [getKey_setKey_ne _ _ _ _ h2, getKey_setKey_ne _ _ _ _ h1]

/-- C8 (witness): a concrete one-field state round-trips to the state with
the timestamp and directory fields set. -/
theorem save_load_round_trip_witness :
    load_project "/p" (save_project [("concept", JVal.str "x")] "/p" 1 (fun _ => none)) =
      some (setKey (setKey [("concept", JVal.str "x")] "saved_at" (JVal.num 1))
        "project_dir" (JVal.str "/p")) :=
  (save_load_round_trip [("concept", JVal.str "x")] "/p" 1 (fun _ => none)
    (by decide)).1

/-- C8 (counterexample): a state saved at time 1 whose stored `saved_at`
was 0 does not load back equal to itself — `save_project` overwrites
`saved_at` with the save timestamp, so the literal round-trip equality of
the claim fails. -/
theorem save_load_not_identity :
    load_project "/p" (save_project
        [("concept", JVal.str "x"), ("saved_at", JVal.num 0),
         ("project_dir", JVal.str "/p")] "/p" 1 (fun _ => none)) ≠
      some [("concept", JVal.str "x"), ("saved_at", JVal.num 0),
            ("project_dir", JVal.str "/p")] := by
  intro h
  have hL : load_project "/p" (save_project
      [("concept", JVal.str "x"), ("saved_at", JVal.num 0),
       ("project_dir", JVal.str "/p")] "/p" 1 (fun _ => none)) =
      some [("concept", JVal.str "x"), ("saved_at", JVal.num 1),
            ("project_dir", JVal.str "/p")] := by rfl
  have hlist := Option.some.inj (hL.symm.trans h)
  have hget : getKey [("concept", JVal.str "x"), ("saved_at", JVal.num 1),
      ("project_dir", JVal.str "/p")] "saved_at" =
      getKey [("concept", JVal.str "x"), ("saved_at", JVal.num 0),
      ("project_dir", JVal.str "/p")] "saved_at" := by rw [hlist]
  have e1 : getKey [("concept", JVal.str "x"), ("saved_at", JVal.num 1),
      ("project_dir", JVal.str "/p")] "saved_at" = some (JVal.num 1) := by rfl
  have e0 : getKey [("concept", JVal.str "x"), ("saved_at", JVal.num 0),
      ("project_dir", JVal.str "/p")] "saved_at" = some (JVal.num 0) := by rfl
  have hnum : JVal.num 1 = JVal.num 0 :=
    Option.some.inj ((e1.symm.trans hget).trans e0)
  have h10 : (1 : ℚ) = 0 := by injection hnum
  exact one_ne_zero h10

/-- C10: whenever `load_project` returns a state, its `project_dir` field
equals the directory argument, overriding any persisted value. -/
theorem load_project_dir_override (dir : String) (fs : String → Option JVal)
    (st : List (String × JVal)) (h : load_project dir fs = some st) :
    getKey st "project_dir" = some (JVal.str dir) := by
  unfold load_project at h
  cases hfs : fs (dir ++ "/project.json") with
  | none =>
    rw [hfs] at h
    exact Option.noConfusion h
  | some j =>
    rw [hfs] at h
    cases j with
    | obj data =>
      rw [← Option.some.inj h]
      exact getKey_setKey_self data "project_dir" (JVal.str dir)
    | null => exact Option.noConfusion h
    | bool b => exact Option.noConfusion h
    | num q => exact Option.noConfusion h
    | str s2 => exact Option.noConfusion h
    | arr a => exact Option.noConfusion h

/-- C10 (witness): loading a stored document whose persisted `project_dir`
is `"/old"` from directory `"/p"` yields a state whose `project_dir` is
`"/p"`. -/
theorem load_project_dir_override_witness :
    getKey (setKey [("project_dir", JVal.str "/old")] "project_dir"
      (JVal.str "/p")) "project_dir" = some (JVal.str "/p") :=
  load_project_dir_override "/p"
    (fun p => if p = "/p/project.json"
      then some (JVal.obj [("project_dir", JVal.str "/old")]) else none)
    (setKey [("project_dir", JVal.str "/old")] "project_dir" (JVal.str "/p"))
    (by rfl)

-- ════════════════════════════════════════════════════════════════════════
-- C9 — slugify_concept
-- ════════════════════════════════════════════════════════════════════════

theorem dropWhile_head_not (p : Char → Bool) :
    ∀ (l : List Char) c t, l.dropWhile p = c :: t → p c = false := by
  intro l
  induction l with
  | nil => intro c t h; cases h
  | cons a rest ih =>
    intro c t h
    rw [List.dropWhile_cons] at h
    by_cases hpa : p a
    · rw [if_pos hpa] at h
      exact ih c t h
    · rw [if_neg hpa] at h
      injection h with h1 _
      rw [← h1]
      simpa using hpa

theorem rstripHyphens_prefix_self (l : List Char) : rstripHyphens l <+: l := by
  refine ⟨(List.takeWhile isHyphen l.reverse).reverse, ?_⟩
  rw [rstripHyphens, ← List.reverse_append,
    List.takeWhile_append_dropWhile isHyphen l.reverse, List.reverse_reverse]

theorem prefix_head_eq {l l' : List Char} (h : l' <+: l) (hne : l' ≠ []) :
    l'.head? = l.head? := by
  obtain ⟨t, rfl⟩ := h
  cases l' with
  | nil => exact absurd rfl hne
  | cons a tl => rfl

theorem rstripHyphens_getLast (l : List Char) (c : Char)
    (h : (rstripHyphens l).getLast? = some c) : isHyphen c = false := by
  rw [rstripHyphens, List.getLast?_reverse] at h
  cases hd : List.dropWhile isHyphen l.reverse with
  | nil => rw [hd] at h; cases h
  | cons a t =>
    rw [hd] at h
    injection h with h1
    rw [← h1]
    exact dropWhile_head_not isHyphen l.reverse a t hd

theorem stripHyphens_head (l : List Char) (c : Char)
    (h : (stripHyphens l).head? = some c) : isHyphen c = false := by
  have hne : stripHyphens l ≠ [] := by
    intro hh
    rw [hh] at h
    cases h
  rw [stripHyphens] at h hne
  rw [prefix_head_eq (rstripHyphens_prefix_self (l.dropWhile isHyphen)) hne] at h
  cases hd : List.dropWhile isHyphen l with
  | nil => rw [hd] at h; cases h
  | cons a t =>
    rw [hd] at h
    injection h with h1
    rw [← h1]
    exact dropWhile_head_not isHyphen l a t hd

theorem collapseRuns_mem (p : Char → Bool) :
    ∀ (l : List Char), ∀ x ∈ collapseRuns p l, x = '-' ∨ (x ∈ l ∧ p x = false) := by
  intro l
  induction l with
  | nil => intro x hx; simp [collapseRuns] at hx
  | cons c rest ih =>
    cases rest with
    | nil =>
      intro x hx
      by_cases hpc : p c
      · simp [collapseRuns, hpc] at hx
        exact Or.inl hx
      · simp [collapseRuns, hpc] at hx
        refine Or.inr ⟨by simp [hx], ?_⟩
        rw [hx]
        simpa using hpc
    | cons d rest2 =>
      intro x hx
      by_cases hcd : p c && p d
      · rw [show collapseRuns p (c :: d :: rest2) = collapseRuns p (d :: rest2) from
          by simp [collapseRuns, hcd]] at hx
        rcases ih x hx with h | ⟨hmem, hfalse⟩
        · exact Or.inl h
        · exact Or.inr ⟨List.mem_cons_of_mem c hmem, hfalse⟩
      · rw [show collapseRuns p (c :: d :: rest2) =
            (if p c then '-' else c) :: collapseRuns p (d :: rest2) from
          by simp [collapseRuns, hcd]] at hx
        rcases List.mem_cons.mp hx with hx1 | hx2
        · by_cases hpc : p c
          · rw [if_pos hpc] at hx1
            exact Or.inl hx1
          · rw [if_neg hpc] at hx1
            refine Or.inr ⟨by simp [hx1], ?_⟩
            rw [hx1]
            simpa using hpc
        · rcases ih x hx2 with h | ⟨hmem, hfalse⟩
          · exact Or.inl h
          · exact Or.inr ⟨List.mem_cons_of_mem c hmem, hfalse⟩

theorem collapseRuns_head_neg (p : Char → Bool) (d : Char) (rest : List Char)
    (h : p d = false) : (collapseRuns p (d :: rest)).head? = some d := by
  cases rest with
  | nil => simp [collapseRuns, h]
  | cons e rest2 => simp [collapseRuns, h]

theorem collapseRuns_hyphen_chain :
    ∀ l, List.Chain' (fun a b => ¬(a = '-' ∧ b = '-')) (collapseRuns isHyphen l) := by
  intro l
  induction l with
  | nil => simp [collapseRuns]
  | cons c rest ih =>
    cases rest with
    | nil =>
      by_cases hpc : isHyphen c <;> simp [collapseRuns, hpc]
    | cons d rest2 =>
      by_cases hcd : isHyphen c && isHyphen d
      · rw [show collapseRuns isHyphen (c :: d :: rest2) =
            collapseRuns isHyphen (d :: rest2) from by simp [collapseRuns, hcd]]
        exact ih
      · rw [show collapseRuns isHyphen (c :: d :: rest2) =
            (if isHyphen c then '-' else c) :: collapseRuns isHyphen (d :: rest2) from
          by simp [collapseRuns, hcd]]
        refine List.chain'_cons'.mpr ⟨?_, ih⟩
        intro y hy
        by_cases hpc : isHyphen c
        · have hpd : isHyphen d = false := by simpa [hpc] using hcd
          rw [collapseRuns_head_neg isHyphen d rest2 hpd] at hy
          have hyd : d = y := by simpa using hy
          intro hand
          rw [← hyd] at hand
          rw [show d = '-' from hand.2] at hpd
          simp [isHyphen] at hpd
        · intro hand
          rw [if_neg hpc] at hand
          rw [show c = '-' from hand.1] at hpc
          simp [isHyphen] at hpc

theorem keep_not_ws_slug (c : Char) (h1 : isKeepChar c = true)
    (h2 : isWsOrUnderscore c = false) : isSlugChar c = true := by
  simp only [isKeepChar, Bool.or_eq_true] at h1
  simp only [isWsOrUnderscore, Bool.or_eq_false_iff] at h2
  simp only [isSlugChar, Bool.or_eq_true]
  rcases h1 with ((h | h) | h) | h
  · exact Or.inl (Or.inl h)
  · exact Or.inl (Or.inr h)
  · rw [h2.1] at h; cases h
  · exact Or.inr h

theorem slug_chars_spec (s : String) :
    (slug_chars s).length ≤ 40
    ∧ (∀ c ∈ slug_chars s, isSlugChar c = true)
    ∧ (∀ c ∈ (slug_chars s).head?, c ≠ '-')
    ∧ (∀ c ∈ (slug_chars s).getLast?, c ≠ '-')
    ∧ List.Chain' (fun a b => ¬(a = '-' ∧ b = '-')) (slug_chars s) := by
  have hkeep : ∀ c ∈ (pyStripWs (s.data.map Char.toLower)).filter isKeepChar,
      isKeepChar c = true := fun c hc => (List.mem_filter.mp hc).2
  generalize hgen : (pyStripWs (s.data.map Char.toLower)).filter isKeepChar = s2 at hkeep
  have hslug : slug_chars s = rstripHyphens ((stripHyphens (collapseRuns isHyphen
      (collapseRuns isWsOrUnderscore s2))).take 40) := by rw [← hgen]; rfl
  rw [hslug]
  have hs4chars : ∀ c ∈ collapseRuns isHyphen (collapseRuns isWsOrUnderscore s2),
      isSlugChar c = true := by
    intro c hc
    rcases collapseRuns_mem isHyphen _ c hc with h | ⟨h3, _⟩
    · rw [h]; decide
    · rcases collapseRuns_mem isWsOrUnderscore _ c h3 with h | ⟨h2m, hnw⟩
      · rw [h]; decide
      · exact keep_not_ws_slug c (hkeep c h2m) hnw
  refine ⟨?_, ?_, ?_, ?_, ?_⟩
  · exact le_trans (rstripHyphens_prefix_self _).sublist.length_le
      (List.length_take_le 40 _)
  · intro c hc
    have h1 : c ∈ (stripHyphens (collapseRuns isHyphen
        (collapseRuns isWsOrUnderscore s2))).take 40 :=
      (rstripHyphens_prefix_self _).sublist.subset hc
    have h2 := List.take_subset 40 _ h1
    have h3 := (rstripHyphens_prefix_self _).sublist.subset h2
    have h4 := (List.dropWhile_sublist isHyphen).subset h3
    exact hs4chars c h4
  · intro c hc
    rw [Option.mem_def] at hc
    have hrne : rstripHyphens ((stripHyphens (collapseRuns isHyphen
        (collapseRuns isWsOrUnderscore s2))).take 40) ≠ [] := by
      intro hh; rw [hh] at hc; cases hc
    have h1 := (prefix_head_eq (rstripHyphens_prefix_self _) hrne).symm.trans hc
    have htne : (stripHyphens (collapseRuns isHyphen
        (collapseRuns isWsOrUnderscore s2))).take 40 ≠ [] := by
      intro hh; rw [hh] at h1; cases h1
    have h2 := (prefix_head_eq
      (⟨(stripHyphens (collapseRuns isHyphen (collapseRuns isWsOrUnderscore s2))).drop 40,
        List.take_append_drop 40 _⟩) htne).symm.trans h1
    have h3 := stripHyphens_head _ c h2
    simpa [isHyphen] using h3
  · intro c hc
    rw [Option.mem_def] at hc
    have h3 := rstripHyphens_getLast _ c hc
    simpa [isHyphen] using h3
  · have c4 := collapseRuns_hyphen_chain (collapseRuns isWsOrUnderscore s2)
    have cdrop := List.Chain'.suffix c4 (List.dropWhile_suffix isHyphen)
    have c5 := List.Chain'.prefix cdrop (rstripHyphens_prefix_self _)
    have c6 := List.Chain'.prefix c5
      (⟨(stripHyphens (collapseRuns isHyphen (collapseRuns isWsOrUnderscore s2))).drop 40,
        List.take_append_drop 40 _⟩)
    exact List.Chain'.prefix c6 (rstripHyphens_prefix_self _)

/-- The fallback slug `"untitled"` has no adjacent hyphens. -/
theorem untitled_chain :
    List.Chain' (fun a b => ¬(a = '-' ∧ b = '-')) "untitled".data := by
  show List.Chain' (fun a b => ¬(a = '-' ∧ b = '-'))
    ('u' :: 'n' :: 't' :: 'i' :: 't' :: 'l' :: 'e' :: 'd' :: [])
  refine List.chain'_cons.mpr ⟨by decide, ?_⟩
  refine List.chain'_cons.mpr ⟨by decide, ?_⟩
  refine List.chain'_cons.mpr ⟨by decide, ?_⟩
  refine List.chain'_cons.mpr ⟨by decide, ?_⟩
  refine List.chain'_cons.mpr ⟨by decide, ?_⟩
  refine List.chain'_cons.mpr ⟨by decide, ?_⟩
  refine List.chain'_cons.mpr ⟨by decide, ?_⟩
  exact List.chain'_singleton 'd'

/-- C9: for every input, `slugify_concept` returns a nonempty string of at
most 40 characters over lowercase letters, digits and hyphens, with no
leading or trailing hyphen and no two consecutive hyphens; and when the
sanitised input reduces to the empty list it returns `"untitled"`. -/
theorem slugify_concept_spec (s : String) :
    (slugify_concept s).data ≠ []
    ∧ (slugify_concept s).data.length ≤ 40
    ∧ (∀ c ∈ (slugify_concept s).data, isSlugChar c = true)
    ∧ (∀ c ∈ (slugify_concept s).data.head?, c ≠ '-')
    ∧ (∀ c ∈ (slugify_concept s).data.getLast?, c ≠ '-')
    ∧ List.Chain' (fun a b => ¬(a = '-' ∧ b = '-')) (slugify_concept s).data
    ∧ (slug_chars s = [] → slugify_concept s = "untitled") := by
  have hdata : (slugify_concept s).data =
      (if slug_chars s = [] then "untitled".data else slug_chars s) := by
    unfold slugify_concept
    by_cases h : slug_chars s = []
    · rw [if_pos h, if_pos h]
    · rw [if_neg h, if_neg h]
  have hlast : slug_chars s = [] → slugify_concept s = "untitled" := by
    intro h
    unfold slugify_concept
    rw [if_pos h]
  by_cases h : slug_chars s = []
  · rw [hdata, if_pos h]
    exact ⟨by decide, by decide, by decide, by decide, by decide,
      untitled_chain, hlast⟩
  · rw [hdata, if_neg h]
    obtain ⟨h1, h2, h3, h4, h5⟩ := slug_chars_spec s
    exact ⟨h, h1, h2, h3, h4, h5, hlast⟩

/-- C9 (witness): concrete evaluations of the slug shape and of the
`"untitled"` fallback. -/
theorem slugify_concept_spec_witness :
    (slugify_concept "  Hello,  World__&42  ").data.length ≤ 40
    ∧ slugify_concept "@@@" = "untitled" :=
  ⟨(slugify_concept_spec "  Hello,  World__&42  ").2.1,
   (slugify_concept_spec "@@@").2.2.2.2.2.2 (by decide)⟩

-- ════════════════════════════════════════════════════════════════════════
-- C1 / C2 / C6 — pack and the template fallback
-- ════════════════════════════════════════════════════════════════════════

/-- Every template in the table has exactly ten beats. -/
theorem templates_beats_length : ∀ t ∈ TEMPLATES, t.beats.length = 10 := by
  decide

/-- Under any permutation oracle, the template picked by the fallback path
is one of the eight registered templates. -/
theorem chosen_template_mem (weights : List (String × ℤ))
    (shuffle : List StoryTemplate → List StoryTemplate)
    (hs : ∀ l, (shuffle l).Perm l) :
    chosen_template weights shuffle ∈ TEMPLATES := by
  unfold chosen_template get_weighted_templates
  set pool := TEMPLATES.flatMap
    (fun t => List.replicate (max 0 (lookupWeight weights t.genre)).toNat t) with hpool
  set pool2 := if pool.isEmpty then TEMPLATES else pool with hpool2
  have hmem : ∀ x ∈ pool2, x ∈ TEMPLATES := by
    intro x hx
    rw [hpool2] at hx
    by_cases hemp : pool.isEmpty
    · rw [if_pos hemp] at hx
      exact hx
    · rw [if_neg hemp] at hx
      rw [hpool] at hx
      rcases List.mem_flatMap.mp hx with ⟨t, ht, hrep⟩
      rw [List.eq_of_mem_replicate hrep]
      exact ht
  show (List.take 1 (shuffle pool2)).headD (TEMPLATES.headD ⟨"", []⟩) ∈ TEMPLATES
  cases hsh : shuffle pool2 with
  | nil => decide
  | cons x xs =>
    have hx : x ∈ pool2 := (hs pool2).mem_iff.mp (by rw [hsh]; exact List.mem_cons_self x xs)
    simpa using hmem x hx

/-- Length of the fallback shot list: the requested (clamped) count capped
by the ten beats a template holds. -/
theorem fallback_shots_length (concept : String) (weights : List (String × ℤ))
    (shot_count : ℤ) (shuffle : List StoryTemplate → List StoryTemplate)
    (hs : ∀ l, (shuffle l).Perm l) (h0 : 0 ≤ shot_count) :
    (fallback_shots concept weights shot_count shuffle).length
      = min shot_count.toNat 10 := by
  unfold fallback_shots fill_template pySlice
  rw [if_neg (not_lt.mpr h0)]
  rw [List.length_map, List.enum_length, List.length_map, List.length_take]
  rw [templates_beats_length (chosen_template weights shuffle)
    (chosen_template_mem weights shuffle hs)]

/-- Every fallback shot carries its beat verbatim as both image and video
prompt. -/
theorem fallback_shots_fields (concept : String) (weights : List (String × ℤ))
    (shot_count : ℤ) (shuffle : List StoryTemplate → List StoryTemplate) :
    ∀ sh ∈ fallback_shots concept weights shot_count shuffle,
      sh.imagePrompt = sh.prompt ∧ sh.videoPrompt = sh.prompt := by
  intro sh hsh
  unfold fallback_shots at hsh
  rcases List.mem_map.mp hsh with ⟨ib, _, rfl⟩
  exact ⟨rfl, rfl⟩

/-- C6: when the service is unreachable, `pack` issues no generation call
(the flag is `false`) and returns exactly the template fallback, in which
`imagePrompt` and `videoPrompt` both equal the beat for every shot. -/
theorem pack_offline_spec (concept : String) (shot_count : ℤ)
    (genre_weights : List (String × ℤ)) (image_model video_model : List Char)
    (ls : Option (List RawShot)) (ge : Bool) (rp : Option (List RefineItem))
    (shuffle : List StoryTemplate → List StoryTemplate) :
    pack ⟨false, ls, ge, rp, shuffle⟩ concept shot_count genre_weights
        image_model video_model
      = (fallback_shots concept
          (if genre_weights.isEmpty then [("action", (50 : ℤ))] else genre_weights)
          (clamp_shot_count shot_count) shuffle, false)
    ∧ ∀ sh ∈ (pack ⟨false, ls, ge, rp, shuffle⟩ concept shot_count genre_weights
        image_model video_model).1,
        sh.imagePrompt = sh.prompt ∧ sh.videoPrompt = sh.prompt := by
  refine ⟨rfl, ?_⟩
  intro sh hsh
  exact fallback_shots_fields _ _ _ _ sh hsh

/-- C6 (witness): concrete offline run. -/
theorem pack_offline_spec_witness :
    pack ⟨false, none, false, none, id⟩ "c" 5 [] [] []
      = (fallback_shots "c" [("action", (50 : ℤ))] (clamp_shot_count 5) id, false) :=
  (pack_offline_spec "c" 5 [] [] [] none false none id).1

/-- C1 (amended): the effective count is clamped to [2, 20]; on the
offline template path `pack` returns exactly `min(clampedCount, 10)` shot
drafts, since every template holds only ten beats. -/
theorem pack_offline_length (shot_count : ℤ) (concept : String)
    (genre_weights : List (String × ℤ)) (image_model video_model : List Char)
    (ls : Option (List RawShot)) (ge : Bool) (rp : Option (List RefineItem))
    (shuffle : List StoryTemplate → List StoryTemplate)
    (hs : ∀ l, (shuffle l).Perm l) :
    ((pack ⟨false, ls, ge, rp, shuffle⟩ concept shot_count genre_weights
        image_model video_model).1).length
      = min (clamp_shot_count shot_count).toNat 10
    ∧ 2 ≤ clamp_shot_count shot_count ∧ clamp_shot_count shot_count ≤ 20 := by
  refine ⟨?_, le_max_left _ _, max_le (by norm_num) (min_le_right _ _)⟩
  show (fallback_shots concept
      (if genre_weights.isEmpty then [("action", (50 : ℤ))] else genre_weights)
      (clamp_shot_count shot_count) shuffle).length
    = min (clamp_shot_count shot_count).toNat 10
  exact fallback_shots_length _ _ _ _ hs
    (le_trans (by norm_num) (le_max_left 2 (min shot_count 20)))

/-- C1 (witness): offline request for 11 shots returns
`min (clamp 11) 10 = 10` drafts. -/
theorem pack_offline_length_witness :
    ((pack ⟨false, none, false, none, id⟩ "x" 11 [("action", 50)] [] []).1).length
      = min (clamp_shot_count 11).toNat 10 :=
  (pack_offline_length 11 "x" [("action", 50)] [] [] none false none id
    (fun l => List.Perm.refl l)).1

/-- C1 (counterexample): with the service unreachable and `shotCount = 11`
(inside the claimed range [2, 20]), `pack` returns 10 shot drafts, not 11 —
the templates hold only ten beats, so the offline path cannot honour the
claim. -/
theorem pack_offline_length_counterexample :
    ((pack ⟨false, none, false, none, id⟩ "x" 11 [("action", 50)] [] []).1).length = 10
    ∧ (10 : ℕ) ≠ 11 := by
  constructor
  · decide
  · decide

/-- The all-zero genre-weight map of the C2 scenario. -/
def lighthouse_weights : List (String × ℤ) :=
  [("action", 0), ("comedy", 0), ("drama", 0), ("horror", 0), ("scifi", 0),
   ("romance", 0), ("fantasy", 0), ("thriller", 0)]

/-- C2 (amended): for concept `"a lighthouse keeper"`, `shotCount = 3`,
every genre weight zero and the service unreachable, `pack` returns
exactly 3 shots which are a single registered template's first three beats
with the `subject` placeholder replaced by the concept, with `imagePrompt`
and `videoPrompt` equal to the beat for each shot; each of those beats
that mentions the placeholder contains the substring
`"lighthouse keeper"` (beats without the placeholder — present among the
first three beats of some templates — need not). -/
theorem pack_lighthouse_spec (shuffle : List StoryTemplate → List StoryTemplate)
    (hs : ∀ l, (shuffle l).Perm l) :
    ((pack ⟨false, none, false, none, shuffle⟩ "a lighthouse keeper" 3
        lighthouse_weights [] []).1).length = 3
    ∧ (∃ t ∈ TEMPLATES,
        (pack ⟨false, none, false, none, shuffle⟩ "a lighthouse keeper" 3
            lighthouse_weights [] []).1
          = (fill_template t "a lighthouse keeper" 3).enum.map (fun ib =>
              { prompt := ib.2, shot_label := "Shot " ++ toString (ib.1 + 1),
                imagePrompt := ib.2, videoPrompt := ib.2 })
        ∧ ∀ i, i < 3 → str_contains (t.beats.getD i "") "{subject}" = true →
            str_contains ((fill_template t "a lighthouse keeper" 3).getD i "")
              "lighthouse keeper" = true)
    ∧ ∀ sh ∈ (pack ⟨false, none, false, none, shuffle⟩ "a lighthouse keeper" 3
        lighthouse_weights [] []).1,
        sh.imagePrompt = sh.prompt ∧ sh.videoPrompt = sh.prompt := by
  have hmem := chosen_template_mem lighthouse_weights shuffle hs
  refine ⟨?_, ⟨chosen_template lighthouse_weights shuffle, hmem, rfl, ?_⟩, ?_⟩
  · show (fallback_shots "a lighthouse keeper" lighthouse_weights
      (clamp_shot_count 3) shuffle).length = 3
    rw [fallback_shots_length "a lighthouse keeper" lighthouse_weights
      (clamp_shot_count 3) shuffle hs (by decide)]
    decide
  · have hdec : ∀ t ∈ TEMPLATES, ∀ i, i < 3 →
        str_contains (t.beats.getD i "") "{subject}" = true →
        str_contains ((fill_template t "a lighthouse keeper" 3).getD i "")
          "lighthouse keeper" = true := by decide
    exact hdec _ hmem
  · intro sh hsh
    exact fallback_shots_fields _ _ _ _ sh hsh

/-- C2 (witness): the identity permutation yields three shots. -/
theorem pack_lighthouse_spec_witness :
    ((pack ⟨false, none, false, none, id⟩ "a lighthouse keeper" 3
        lighthouse_weights [] []).1).length = 3 :=
  (pack_lighthouse_spec id (fun l => List.Perm.refl l)).1

/-- C2 (counterexample): `List.reverse` is one of the permutations the
uniform sampler can produce (it permutes every pool); under it the
thriller template is selected, and its second beat — `"Close-up: a
suspicious object discovered — face drains of color."` — contains no
`subject` placeholder, so the returned second shot does not contain the
substring `"lighthouse keeper"`, contradicting the claim for that
sampler choice. -/
theorem pack_lighthouse_counterexample :
    ((pack ⟨false, none, false, none, List.reverse⟩ "a lighthouse keeper" 3
        lighthouse_weights [] []).1).length = 3
    ∧ str_contains (((pack ⟨false, none, false, none, List.reverse⟩
        "a lighthouse keeper" 3 lighthouse_weights [] []).1).getD 1
          ⟨"", "", "", ""⟩).prompt "lighthouse keeper" = false := by
  constructor
  · decide
  · decide

-- ════════════════════════════════════════════════════════════════════════
-- C7 — _refine_prompts length discipline
-- ════════════════════════════════════════════════════════════════════════

/-- C7: `_refine_prompts` returns a refined list only when the generation
call succeeded, an array was parsed, and the parsed array is nonempty with
length exactly equal to the number of input shots (in which case the
output also has that length); contrapositively it returns nothing whenever
the parsed length differs, no array is parseable, or the call errors, so
the caller retains the original prompts. -/
theorem refine_prompts_length_spec (ge : Bool) (parsed : Option (List RefineItem))
    (shots : List RawShot) (image_model video_model : List Char)
    (out : List ShotDict)
    (h : refine_prompts ge parsed shots image_model video_model = some out) :
    ge = false ∧ parsed = some (parsed.getD [])
    ∧ parsed.getD [] ≠ [] ∧ (parsed.getD []).length = shots.length
    ∧ out.length = shots.length := by
  unfold refine_prompts at h
  by_cases hg : format_guide_is_empty image_model && format_guide_is_empty video_model
  · rw [if_pos hg] at h
    exact Option.noConfusion h
  · rw [if_neg hg] at h
    by_cases hge : ge = true
    · rw [if_pos hge] at h
      exact Option.noConfusion h
    · rw [if_neg hge] at h
      cases parsed with
      | none => exact Option.noConfusion h
      | some r =>
        have h2 : (if r.isEmpty = false ∧ r.length = shots.length then
            some ((shots.zip r).map (fun sr =>
              ({ prompt := sr.1.prompt, shot_label := sr.1.shot_label,
                 imagePrompt := sr.2.imagePrompt.getD sr.1.prompt,
                 videoPrompt := sr.2.videoPrompt.getD sr.1.prompt } : ShotDict)))
          else none) = some out := h
        by_cases hc : r.isEmpty = false ∧ r.length = shots.length
        · rw [if_pos hc] at h2
          have hout := (Option.some.inj h2).symm
          refine ⟨by simpa using hge, rfl, ?_, hc.2, ?_⟩
          · show r ≠ []
            intro hre
            rw [hre] at hc
            simp at hc
          · rw [hout, List.length_map, List.length_zip, hc.2]
            exact min_self _
        · rw [if_neg hc] at h2
          exact Option.noConfusion h2

/-- C7 (witness): one shot refined against a one-element parsed array. -/
theorem refine_prompts_length_spec_witness :
    (false : Bool) = false
    ∧ (some [({imagePrompt := some "a", videoPrompt := some "b"} : RefineItem)] :
        Option (List RefineItem))
      = some ((some [({imagePrompt := some "a", videoPrompt := some "b"} :
          RefineItem)] : Option (List RefineItem)).getD [])
    ∧ (some [({imagePrompt := some "a", videoPrompt := some "b"} : RefineItem)] :
        Option (List RefineItem)).getD [] ≠ []
    ∧ ((some [({imagePrompt := some "a", videoPrompt := some "b"} : RefineItem)] :
        Option (List RefineItem)).getD []).length
      = [({prompt := "p", shot_label := "l"} : RawShot)].length
    ∧ [({prompt := "p", shot_label := "l", imagePrompt := "a",
          videoPrompt := "b"} : ShotDict)].length
      = [({prompt := "p", shot_label := "l"} : RawShot)].length :=
  refine_prompts_length_spec false
    (some [({imagePrompt := some "a", videoPrompt := some "b"} : RefineItem)])
    [({prompt := "p", shot_label := "l"} : RawShot)] "flux".data []
    [({prompt := "p", shot_label := "l", imagePrompt := "a",
        videoPrompt := "b"} : ShotDict)] (by decide)
